import Mathlib

/-!
Shallow embedding of the `trackme` location-tracking backend (`src/app.py`).

The service is pure orchestration: a bounding-box region validator
(`is_within_philippines`), a reverse-geocoder client with fallback records
(`get_address_from_coordinates`), a save handler (`save_location`) and a
listing route (`get_locations`).  Each Python function is embedded as a total
Lean function; the effectful parts (HTTP call to Nominatim, MongoDB insert,
current time, the global `database` handle) become explicit parameters
describing the outcome of each external interaction, so that the handler's
control flow is the part being verified.
-/

namespace TrackMe

/-- A Python value arriving as `latitude`/`longitude` in the JSON body, as far
as `float(·)` conversion is concerned.  `num` is an int/float, `numStr` a
string that `float` parses, `null` is Python `None` (what `dict.get` yields
for a missing key), `other` any value on which `float` raises
`ValueError`/`TypeError`. -/
inductive Value where
  | num (q : ℚ)
  | numStr (q : ℚ)
  | null
  | other
deriving DecidableEq, Repr

/-- Python `float(v)` restricted to the cases above: `some q` when the
conversion succeeds, `none` when it raises `ValueError`/`TypeError`. -/
def pyFloat : Value → Option ℚ
  | .num q => some q
  | .numStr q => some q
  | .null => none
  | .other => none

/-- `is_within_philippines` (app.py:178-191): convert both inputs with
`float`, returning `False` when either conversion raises, otherwise test the
fixed bounding box `4.5 <= lat <= 21.5 and 116.0 <= lon <= 127.0`. -/
def is_within_philippines (lat lon : Value) : Bool :=
  match pyFloat lat, pyFloat lon with
  | some la, some lo =>
      decide ((4.5 : ℚ) ≤ la ∧ la ≤ 21.5 ∧ (116.0 : ℚ) ≤ lo ∧ lo ≤ 127.0)
  | _, _ => false

/-- The parsed JSON body of a Nominatim reverse-geocoding response: the
optional `display_name` field and the four components the code reads from the
nested `address` mapping (each `none` when the key is absent). -/
structure NominatimData where
  display_name : Option String
  city : Option String
  province : Option String
  country : Option String
  postcode : Option String
deriving DecidableEq, Repr

/-- Outcome of the `requests.get` call to Nominatim: either a completed
response with an HTTP status and (when needed) parsed JSON, or an exception
raised by the network library / JSON parsing. -/
inductive HttpOutcome where
  | resp (status : Nat) (data : NominatimData)
  | exn
deriving DecidableEq, Repr

/-- The address dictionary `get_address_from_coordinates` returns: on the
success path all five keys are present (`some`), on the fallback paths only
`full_address` is present (the other fields are `none`). -/
structure Address where
  full_address : String
  city : Option String
  province : Option String
  country : Option String
  postcode : Option String
deriving DecidableEq, Repr

/-- `get_address_from_coordinates` (app.py:23-74) as a function of the HTTP
outcome: on a 200 response whose body contains `display_name`, build the
structured dictionary with each component defaulted to `""`; on any other
status or a missing `display_name` return `{'full_address': 'Location not
found'}`; on any exception return `{'full_address': 'Location lookup
failed'}`. -/
def get_address_from_coordinates : HttpOutcome → Address
  | .exn => ⟨"Location lookup failed", none, none, none, none⟩
  | .resp status data =>
      if status = 200 then
        match data.display_name with
        | some dn =>
            ⟨dn, some (data.city.getD ""), some (data.province.getD ""),
              some (data.country.getD ""), some (data.postcode.getD "")⟩
        | none => ⟨"Location not found", none, none, none, none⟩
      else ⟨"Location not found", none, none, none, none⟩

/-- The MongoDB document built by `save_location` (app.py:153-158). -/
structure LocationDoc where
  latitude : ℚ
  longitude : ℚ
  address : Address
  timestamp : Nat
deriving DecidableEq, Repr

/-- Outcome of `locations_collection.insert_one`: a generated `ObjectId`
(modelled as a number, stringified for the response) or an exception with
message `msg`. -/
inductive InsertOutcome where
  | ok (oid : Nat)
  | exn (msg : String)
deriving DecidableEq, Repr

/-- A JSON response body produced by the `/save_location` route. -/
inductive RespBody where
  | err (message : String)
  | success (message : String) (id : String) (address : Address)
deriving DecidableEq, Repr

/-- Everything the `save_location` handler observes: whether the global
`database` handle is `None`, the two fields `request.get_json()` yields, the
outcome of the Nominatim call (if reached), the outcome of `insert_one` (if
reached) and `datetime.utcnow()`. -/
structure HandlerInput where
  dbNone : Bool
  body_latitude : Option Value
  body_longitude : Option Value
  geo : HttpOutcome
  insert : InsertOutcome
  now : Nat

/-- The observable effect of one `save_location` request: HTTP status, JSON
body, the documents inserted into the store, and whether the geocoder was
invoked. -/
structure HandlerResult where
  status : Nat
  body : RespBody
  inserted : List LocationDoc
  geocoderCalled : Bool
deriving DecidableEq, Repr

/-- `save_location` (app.py:124-176).  Guard on `database is None`, read
`latitude`/`longitude` with `dict.get` (missing key yields `None`), reject
out-of-region coordinates with 400, otherwise geocode, build the document,
insert, and answer 200; an exception from `insert_one` is caught by the
surrounding `try` and answered as 500 with the exception text.  The final
match arm is unreachable: `float(·)` cannot raise once the validator
accepted, so it stands for the generic `except` clause. -/
def save_location (inp : HandlerInput) : HandlerResult :=
  if inp.dbNone then
    ⟨500, .err "Database connection lost", [], false⟩
  else
    let latitude := inp.body_latitude.getD .null
    let longitude := inp.body_longitude.getD .null
    if is_within_philippines latitude longitude = false then
      ⟨400, .err "Location outside Philippines", [], false⟩
    else
      let address_info := get_address_from_coordinates inp.geo
      match pyFloat latitude, pyFloat longitude with
      | some la, some lo =>
          let location_doc : LocationDoc := ⟨la, lo, address_info, inp.now⟩
          match inp.insert with
          | .ok oid =>
              ⟨200, .success "Location saved" (toString oid) address_info,
                [location_doc], true⟩
          | .exn msg => ⟨500, .err msg, [], true⟩
      | _, _ => ⟨500, .err "float conversion failed", [], true⟩

/-- A document as stored in the `locations` collection, with its
store-assigned `ObjectId`. -/
structure DbDoc where
  oid : Nat
  latitude : ℚ
  longitude : ℚ
  address : Address
  timestamp : Nat
deriving DecidableEq, Repr

/-- A document as serialized by `/locations`: the `_id` replaced by its
string form. -/
structure OutDoc where
  id : String
  latitude : ℚ
  longitude : ℚ
  address : Address
  timestamp : Nat
deriving DecidableEq, Repr

/-- The comparison `sort('timestamp', -1)` uses: timestamp descending. -/
def tsDesc (a b : DbDoc) : Bool := b.timestamp ≤ a.timestamp

/-- `get_locations` (app.py:193-202) as a function of the collection's
contents: `find().sort('timestamp', -1).limit(50)` then stringify each
`_id`. -/
def get_locations (store : List DbDoc) : List OutDoc :=
  ((store.mergeSort tsDesc).take 50).map
    (fun d => ⟨toString d.oid, d.latitude, d.longitude, d.address, d.timestamp⟩)

/-- C2: for every pair of values convertible to numbers, the region validator
returns true iff the latitude lies in [4.5, 21.5] and the longitude in
[116.0, 127.0]; any pair with either coordinate outside its range yields
false. -/
theorem is_within_philippines_iff (lat lon : Value) (la lo : ℚ)
    (hla : pyFloat lat = some la) (hlo : pyFloat lon = some lo) :
    is_within_philippines lat lon = true ↔
      ((4.5 : ℚ) ≤ la ∧ la ≤ 21.5 ∧ (116.0 : ℚ) ≤ lo ∧ lo ≤ 127.0) := by
  unfold is_within_philippines
  rw [hla, hlo]
  simp

/-- Witness for C2 at the Manila coordinate (14.5995, 120.9842). -/
theorem is_within_philippines_iff_witness :
    is_within_philippines (.num 14.5995) (.num 120.9842) = true ↔
      ((4.5 : ℚ) ≤ 14.5995 ∧ (14.5995 : ℚ) ≤ 21.5 ∧
        (116.0 : ℚ) ≤ 120.9842 ∧ (120.9842 : ℚ) ≤ 127.0) :=
  is_within_philippines_iff (.num 14.5995) (.num 120.9842) 14.5995 120.9842 rfl rfl

/-- C4: the geocoder client never raises to its caller (it is total on every
`HttpOutcome`); on a non-200 status or a 200 response missing `display_name`
its `full_address` is "Location not found", and on any network/parsing
exception it is "Location lookup failed". -/
theorem geocoder_fallback (out : HttpOutcome)
    (h : out = .exn ∨
      ∃ s d, out = .resp s d ∧ (s ≠ 200 ∨ d.display_name = none)) :
    (get_address_from_coordinates out).full_address =
      (if out = .exn then "Location lookup failed" else "Location not found") := by
  rcases h with h | ⟨s, d, h, hfail⟩
  · subst h; rfl
  · subst h
    simp only [get_address_from_coordinates, reduceCtorEq, if_false]
    rcases hfail with hs | hdn
    · rw [if_neg hs]
    · rcases Nat.decEq s 200 with hne | heq
      · rw [if_neg hne]
      · rw [if_pos heq, hdn]

/-- Witness for C4: the exception outcome yields the lookup-failed
sentinel. -/
theorem geocoder_fallback_witness :
    (get_address_from_coordinates .exn).full_address =
      (if (HttpOutcome.exn = .exn) then "Location lookup failed"
        else "Location not found") :=
  geocoder_fallback .exn (Or.inl rfl)

/-- C9: on a 200 response containing `display_name` the geocoder builds the
full structured record, defaulting each component to "" when absent from the
address mapping; on a failing status or missing `display_name`, and on an
exception, only `full_address` is present and holds the fixed sentinel. -/
theorem address_record_shape (d : NominatimData) (dn : String)
    (h : d.display_name = some dn) :
    get_address_from_coordinates (.resp 200 d) =
        ⟨dn, some (d.city.getD ""), some (d.province.getD ""),
          some (d.country.getD ""), some (d.postcode.getD "")⟩
      ∧ (∀ (s : Nat) (e : NominatimData),
          s ≠ 200 ∨ e.display_name = none →
            get_address_from_coordinates (.resp s e) =
              ⟨"Location not found", none, none, none, none⟩)
      ∧ get_address_from_coordinates .exn =
          ⟨"Location lookup failed", none, none, none, none⟩ := by
  refine ⟨?_, ?_, rfl⟩
  · simp [get_address_from_coordinates, h]
  · intro s e hfail
    simp only [get_address_from_coordinates]
    rcases hfail with hs | hdn
    · rw [if_neg hs]
    · rcases Nat.decEq s 200 with hne | heq
      · rw [if_neg hne]
      · rw [if_pos heq, hdn]

/-- Witness for C9 at a concrete 200 response with a display name, a city and
a country but no province or postcode. -/
theorem address_record_shape_witness :
    get_address_from_coordinates
        (.resp 200 ⟨some "Manila, Philippines", some "Manila", none,
          some "Philippines", none⟩) =
      ⟨"Manila, Philippines", some "Manila", some "", some "Philippines",
        some ""⟩ :=
  (address_record_shape
    ⟨some "Manila, Philippines", some "Manila", none, some "Philippines", none⟩
    "Manila, Philippines" rfl).1

/-- C1: on a request with a database handle, coordinates accepted by the
region validator, and a completing geocoder call and insert, the handler
builds the document {latitude, longitude, address from the geocoder, current
UTC timestamp}, inserts exactly that one document, and answers 200 with
{status success, message "Location saved", id stringified, address the same
record}. -/
theorem save_location_success (inp : HandlerInput) (la lo : ℚ) (oid : Nat)
    (hdb : inp.dbNone = false)
    (hla : pyFloat (inp.body_latitude.getD .null) = some la)
    (hlo : pyFloat (inp.body_longitude.getD .null) = some lo)
    (hin : is_within_philippines (inp.body_latitude.getD .null)
      (inp.body_longitude.getD .null) = true)
    (hins : inp.insert = .ok oid) :
    save_location inp =
      ⟨200,
        .success "Location saved" (toString oid)
          (get_address_from_coordinates inp.geo),
        [⟨la, lo, get_address_from_coordinates inp.geo, inp.now⟩], true⟩ := by
  unfold save_location
  rw [hdb, if_neg Bool.false_ne_true]
  simp only [hin, hla, hlo, hins]
  rfl

/-- Witness for C1 at the Manila coordinate with a found address and
ObjectId 7. -/
theorem save_location_success_witness :
    save_location
        ⟨false, some (.num 14.5995), some (.num 120.9842),
          .resp 200 ⟨some "Manila", none, none, none, none⟩, .ok 7, 42⟩ =
      ⟨200,
        .success "Location saved" "7"
          ⟨"Manila", some "", some "", some "", some ""⟩,
        [⟨14.5995, 120.9842, ⟨"Manila", some "", some "", some "", some ""⟩,
          42⟩], true⟩ :=
  save_location_success
    ⟨false, some (.num 14.5995), some (.num 120.9842),
      .resp 200 ⟨some "Manila", none, none, none, none⟩, .ok 7, 42⟩
    14.5995 120.9842 7 rfl rfl rfl
    (by show is_within_philippines (.num 14.5995) (.num 120.9842) = true
        simp only [is_within_philippines, pyFloat]
        norm_num)
    rfl

/-- C5 (counterexample): a request arriving after a successful startup — the
global `database` handle is set (`dbNone = false`, app.py:106-117 exits when
it is `None` and the global is never reassigned) — while the connection is
actually unavailable, so `insert_one` raises.  With the in-region Manila
coordinate the handler answers 500 carrying the driver's exception text, not
the body {status error, message "Database connection lost"} the claim
states. -/
theorem save_location_db_lost_counterexample :
    save_location
        ⟨false, some (.num 14.5995), some (.num 120.9842), .exn,
          .exn "ServerSelectionTimeoutError: connection unavailable", 42⟩ =
      ⟨500, .err "ServerSelectionTimeoutError: connection unavailable", [],
        true⟩ ∧
    RespBody.err "ServerSelectionTimeoutError: connection unavailable" ≠
      RespBody.err "Database connection lost" := by
  constructor
  · have hin : is_within_philippines (.num 14.5995) (.num 120.9842) = true := by
      simp only [is_within_philippines, pyFloat]
      norm_num
    unfold save_location
    simp [hin, pyFloat]
  · simp

/-- C5 (amended): after a successful startup the handle is non-None, so a
connection lost at request time surfaces when `insert_one` raises: for
in-region coordinates the handler answers 500 with {status error, message:
the exception text} — the body "Database connection lost" belongs only to
the `database is None` guard, which a successful startup makes
unreachable. -/
theorem save_location_db_error (inp : HandlerInput) (la lo : ℚ)
    (msg : String)
    (hdb : inp.dbNone = false)
    (hla : pyFloat (inp.body_latitude.getD .null) = some la)
    (hlo : pyFloat (inp.body_longitude.getD .null) = some lo)
    (hin : is_within_philippines (inp.body_latitude.getD .null)
      (inp.body_longitude.getD .null) = true)
    (hins : inp.insert = .exn msg) :
    save_location inp = ⟨500, .err msg, [], true⟩ := by
  unfold save_location
  rw [hdb, if_neg Bool.false_ne_true]
  simp only [hin, hla, hlo, hins]
  rfl

/-- Witness for the amended C5: an in-region request whose insert raises. -/
theorem save_location_db_error_witness :
    save_location ⟨false, some (.num 10), some (.num 120), .exn,
        .exn "server selection timeout", 0⟩ =
      ⟨500, .err "server selection timeout", [], true⟩ :=
  save_location_db_error _ 10 120 "server selection timeout" rfl rfl rfl
    (by show is_within_philippines (.num 10) (.num 120) = true
        simp only [is_within_philippines, pyFloat]
        norm_num)
    rfl

/-- C6: a geocoder exception (e.g. the service unreachable) never aborts the
save: with in-region coordinates and a completing insert, the document is
still inserted and the response is 200 with an address whose `full_address`
is the failure sentinel "Location lookup failed". -/
theorem save_location_geocoder_failure (inp : HandlerInput) (la lo : ℚ)
    (oid : Nat)
    (hdb : inp.dbNone = false)
    (hgeo : inp.geo = .exn)
    (hla : pyFloat (inp.body_latitude.getD .null) = some la)
    (hlo : pyFloat (inp.body_longitude.getD .null) = some lo)
    (hin : is_within_philippines (inp.body_latitude.getD .null)
      (inp.body_longitude.getD .null) = true)
    (hins : inp.insert = .ok oid) :
    (save_location inp).status = 200 ∧
      (save_location inp).inserted =
        [⟨la, lo, ⟨"Location lookup failed", none, none, none, none⟩,
          inp.now⟩] ∧
      (save_location inp).body =
        .success "Location saved" (toString oid)
          ⟨"Location lookup failed", none, none, none, none⟩ := by
  rw [save_location_success inp la lo oid hdb hla hlo hin hins, hgeo]
  exact ⟨rfl, rfl, rfl⟩

/-- Witness for C6 at the Manila coordinate with the geocoder raising. -/
theorem save_location_geocoder_failure_witness :
    (save_location ⟨false, some (.num 14.5995), some (.num 120.9842),
        .exn, .ok 7, 42⟩).status = 200 ∧
      (save_location ⟨false, some (.num 14.5995), some (.num 120.9842),
          .exn, .ok 7, 42⟩).inserted =
        [⟨14.5995, 120.9842,
          ⟨"Location lookup failed", none, none, none, none⟩, 42⟩] ∧
      (save_location ⟨false, some (.num 14.5995), some (.num 120.9842),
          .exn, .ok 7, 42⟩).body =
        .success "Location saved" "7"
          ⟨"Location lookup failed", none, none, none, none⟩ :=
  save_location_geocoder_failure
    ⟨false, some (.num 14.5995), some (.num 120.9842), .exn, .ok 7, 42⟩
    14.5995 120.9842 7 rfl rfl rfl rfl
    (by show is_within_philippines (.num 14.5995) (.num 120.9842) = true
        simp only [is_within_philippines, pyFloat]
        norm_num)
    rfl

/-- C7: with a database handle present but coordinates the region validator
rejects, the handler answers 400 with {status error, message "Location
outside Philippines"}, the geocoder is not invoked, and nothing is
inserted. -/
theorem save_location_out_of_region (inp : HandlerInput)
    (hdb : inp.dbNone = false)
    (hin : is_within_philippines (inp.body_latitude.getD .null)
      (inp.body_longitude.getD .null) = false) :
    save_location inp =
      ⟨400, .err "Location outside Philippines", [], false⟩ := by
  unfold save_location
  rw [hdb, if_neg Bool.false_ne_true]
  simp [hin]

/-- Witness for C7 at the New York coordinate (40.0, -74.0). -/
theorem save_location_out_of_region_witness :
    save_location ⟨false, some (.num 40), some (.num (-74)),
        .exn, .ok 7, 42⟩ =
      ⟨400, .err "Location outside Philippines", [], false⟩ :=
  save_location_out_of_region _ rfl
    (by show is_within_philippines (.num 40) (.num (-74)) = false
        simp only [is_within_philippines, pyFloat]
        norm_num)

/-- C8: for every state of the collection, `/locations` returns at most 50
records, ordered by timestamp descending (most recent first), and every
returned record is a stored document with its identifier converted to a
plain string. -/
theorem get_locations_spec (store : List DbDoc) :
    (get_locations store).length ≤ 50 ∧
      (get_locations store).Pairwise (fun a b => b.timestamp ≤ a.timestamp) ∧
      ∀ d ∈ get_locations store, ∃ s ∈ store,
        d = ⟨toString s.oid, s.latitude, s.longitude, s.address,
          s.timestamp⟩ := by
  refine ⟨?_, ?_, ?_⟩
  · simp only [get_locations, List.length_map, List.length_take]
    exact min_le_left _ _
  · have hs : (store.mergeSort tsDesc).Pairwise
        (fun a b => tsDesc a b = true) :=
      List.sorted_mergeSort
        (fun a b c hab hbc => by
          simp only [tsDesc, decide_eq_true_eq] at hab hbc ⊢
          omega)
        (fun a b => by
          simp only [tsDesc, Bool.or_eq_true, decide_eq_true_eq]
          omega)
        store
    have ht := List.Pairwise.sublist
      (List.take_sublist 50 (store.mergeSort tsDesc)) hs
    refine List.pairwise_map.mpr (ht.imp ?_)
    intro a b hab
    simpa [tsDesc] using hab
  · intro d hd
    rcases List.mem_map.mp hd with ⟨s, hs, rfl⟩
    exact ⟨s, List.mem_mergeSort.mp (List.mem_of_mem_take hs), rfl⟩

end TrackMe
